import Mathlib

/-!
Verification of the seat-management core (src/logind-seat.c) against its
natural-language specification.

The C code is shallowly embedded.  Kernel and collaborator interactions
(VT device opens, console-active reads, device-ACL application, session
stop requests) are supplied by an oracle environment `Env`, and the
externally visible actions of each embedded function are recorded as a
list of `Event` values in program order.  C `int` results are modelled as
`Int` (0 = success, negative errno on failure); the unsigned counter
`n_autovts` is modelled as `Nat`.  Text manipulated by the VT parser is
modelled as `List Char`.
-/

/-- errno value EINVAL (22), returned negated by the embedded code. -/
def EINVAL : Int := 22

/-- errno value EIO (5), returned negated by the embedded code. -/
def EIO_errno : Int := 5

/-- A session attached to a seat: exactly the `Session` fields that
logind-seat.c reads (`id`, `user->uid`, `vtnr`).  Pointer identity of the
C session list is modelled by structural equality (session ids are unique
within a manager). -/
structure Session where
  id : String
  uid : Nat
  vtnr : Int
  deriving Repr, DecidableEq

/-- Externally visible actions of the embedded seat functions, recorded in
program order.  Logging calls are included as events; the spec declares
logging informational and outside the functional contract. -/
inductive Event where
  /-- `vt_allocate(n)`: open `/dev/tty<n>` read-write, non-controlling, and
  close it again immediately (the attempt is recorded whether or not the
  open succeeds). -/
  | vtOpenClose (n : Nat)
  /-- `log_error("Failed to preallocate VT %i...")` for VT `n`. -/
  | logPreallocFail (n : Nat)
  /-- `log_debug("VT changed to %i")`. -/
  | logVtChanged (n : Int)
  /-- `devnode_acl_all(...)`: the device-ACL collaborator invoked with the
  seat id, the old active session (revoke) and the new active session
  (grant); the C call passes the corresponding flags and uids. -/
  | aclApply (seat_id : String) (old_active : Option Session) (new_active : Option Session)
  /-- `log_error("Failed to apply ACLs: ...")`. -/
  | logAclFail
  /-- `manager_spawn_autovt(m, n)` requested (fire-and-forget). -/
  | spawnAutovt (n : Int)
  /-- one `read` of the console-active indicator file descriptor. -/
  | readConsole
  /-- any of the `log_error` calls on a failed or malformed console read. -/
  | logReadFail
  /-- `seat_save(s)` invoked (persistence write trigger). -/
  | saveSeat
  /-- `log_info("New seat %s.")`. -/
  | logNewSeat (id : String)
  /-- `log_info("Removed seat %s.")`. -/
  | logRemovedSeat (id : String)
  /-- `session_stop(session)` requested for the session with this id. -/
  | sessionStop (id : String)
  /-- `unlink(s->state_file)`. -/
  | unlinkStateFile
  /-- the seat prepended itself to the manager gc queue. -/
  | gcEnqueue (id : String)
  /-- `session_free` of the session with this id (during `seat_free`). -/
  | sessionFree (id : String)
  /-- `device_free` of the device with this handle (during `seat_free`). -/
  | deviceFree (d : Nat)
  deriving Repr, DecidableEq

/-- Oracle environment: outcomes of the kernel and collaborator calls the
seat code makes.  Results are C-style: 0 on success, negative errno on
failure. -/
structure Env where
  /-- result of `vt_allocate(n)`: outcome of the asprintf + open_terminal
  attempt on `/dev/tty<n>` (0 = opened and closed, negative = errno). -/
  vtOpen : Nat → Int
  /-- result of reading the console-active indicator: the bytes read
  (`k > 0`), or the negative code the C code produces for a failed read
  (`-errno` when `read` returns negative, `-EIO` on EOF). -/
  consoleRead : Except Int (List Char)
  /-- result of `devnode_acl_all` given old and new active session. -/
  aclResult : Option Session → Option Session → Int
  /-- result of `session_stop` for the session with the given id. -/
  sessionStopResult : String → Int

/-- The seat state: fields of `struct Seat` read or written by
logind-seat.c, with the two manager fields the code consults inlined
(`is_vtconsole` stands for `s->manager->vtconsole == s`, and `n_autovts`
for `s->manager->n_autovts`). -/
structure SeatState where
  id : String
  /-- `sessions_by_seat` list, in attachment order. -/
  sessions : List Session
  /-- non-owning reference to the active session. -/
  active : Option Session
  /-- device handles owned by the seat. -/
  devices : List Nat
  started : Bool
  in_gc_queue : Bool
  is_vtconsole : Bool
  n_autovts : Nat
  deriving Repr, DecidableEq

/-- The portions of the manager the destruction path touches, together
with the seat being destroyed: the seat registry (`m->seats`, as the list
of registered ids) and the gc queue (`m->seat_gc_queue`, as ids). -/
structure World where
  seat : SeatState
  registry : List String
  gc_queue : List String
  deriving Repr, DecidableEq

/-! ## Text helpers (modelled utility functions) -/

/-- Modelled from the spec: `startswith` from util.c (not under src/) is
the literal prefix test used for the `"tty"` and `"seat"` checks. -/
def starts_with : List Char → List Char → Bool
  | [], _ => true
  | _ :: _, [] => false
  | p :: ps, c :: cs => p == c && starts_with ps cs

/-- Modelled from the spec: `truncate_nl` from util.c (not under src/) —
"strip a trailing newline" from the text read from the console-active
indicator. -/
def truncate_nl (l : List Char) : List Char :=
  if l.getLast? = some '\n' then l.dropLast else l

/-- Numeric value of a decimal digit character. -/
def digit_val (c : Char) : Nat := c.toNat - 48

/-- Value of a string of decimal digits, most significant first. -/
def digits_to_nat (l : List Char) : Nat :=
  l.foldl (fun a c => a * 10 + digit_val c) 0

/-- Modelled from the spec: `safe_atoi` from util.c (not under src/) —
"parse the remaining decimal digits as the VT number": the remainder must
be one or more decimal digits, whose value is returned. -/
def parse_decimal (l : List Char) : Option Nat :=
  if !l.isEmpty && l.all Char.isDigit then some (digits_to_nat l) else none

/-! ## Persistence: seat_save (lines 82-156)

The claimed property is about the text written between the `fopen` and the
`fflush`; `seat_save_content` is that text.  `fprintf`/`fputs` calls are
concatenated in program order. -/

/-- The `OTHER=` list body: `LIST_FOREACH(sessions_by_seat, i, s->sessions)`
skipping `i == s->active`, printing `"%s%c"` with the separator `' '` when
`i->sessions_by_seat_next` is non-null (i.e. `i` is not last) and `'\n'`
when it is null. -/
def other_ids_text (active : Option Session) : List Session → String
  | [] => ""
  | i :: rest =>
      (if some i = active then ""
       else i.id ++ (if rest.isEmpty then "\n" else " "))
      ++ other_ids_text active rest

/-- The `OTHER_UIDS=` list body, same traversal printing `"%lu%c"`. -/
def other_uids_text (active : Option Session) : List Session → String
  | [] => ""
  | i :: rest =>
      (if some i = active then ""
       else toString i.uid ++ (if rest.isEmpty then "\n" else " "))
      ++ other_uids_text active rest

/-- The text `seat_save` writes to the temporary file (lines 99-138):
header comment, `IS_VTCONSOLE=%i` with `s->manager->vtconsole == s`, then
if `s->active` the `ACTIVE=`/`ACTIVE_UID=` lines, then if `s->sessions` is
non-empty the `OTHER=` and `OTHER_UIDS=` bodies. -/
def seat_save_content (s : SeatState) : String :=
  "# This is private data. Do not parse.\nIS_VTCONSOLE="
    ++ (if s.is_vtconsole then "1" else "0") ++ "\n"
  ++ (match s.active with
      | some a => "ACTIVE=" ++ a.id ++ "\nACTIVE_UID=" ++ toString a.uid ++ "\n"
      | none => "")
  ++ (if s.sessions.isEmpty then ""
      else "OTHER=" ++ other_ids_text s.active s.sessions
           ++ "OTHER_UIDS=" ++ other_uids_text s.active s.sessions)

/-! ## VT preallocation: vt_allocate (164-182), seat_preallocate_vts (184-208) -/

/-- `vt_allocate(vtnr)`: try to open `/dev/tty<vtnr>` read-write,
non-controlling, closing it immediately on success; the result is the
oracle outcome (0 or negative errno, the asprintf ENOMEM case folded into
the oracle). -/
def vt_allocate (env : Env) (vtnr : Nat) : Int × List Event :=
  (env.vtOpen vtnr, [Event.vtOpenClose vtnr])

/-- One iteration of the preallocation loop: `q = vt_allocate(i); if (q < 0)
{ log_error(...); r = q; }` threading `(r, events so far)`. -/
def prealloc_step (env : Env) (acc : Int × List Event) (i : Nat) : Int × List Event :=
  let qe := vt_allocate env i
  if qe.1 < 0 then (qe.1, acc.2 ++ qe.2 ++ [Event.logPreallocFail i])
  else (acc.1, acc.2 ++ qe.2)

/-- `seat_preallocate_vts(s)`: returns 0 when `n_autovts` is 0 or the seat
is not the vtconsole; otherwise runs `for (i = 1; i < n_autovts; i++)`
over the loop body above, returning the last failure seen (0 if none). -/
def seat_preallocate_vts (env : Env) (s : SeatState) : Int × List Event :=
  if s.n_autovts = 0 then (0, [])
  else if s.is_vtconsole = false then (0, [])
  else (List.range' 1 (s.n_autovts - 1)).foldl (prealloc_step env) (0, [])

/-! ## ACL application and the active-VT protocol (210-254) -/

/-- `seat_apply_acls(s, old_active)`: delegate to `devnode_acl_all` with
the seat id, the old active session and the (already updated) current
active session; log on failure and return the collaborator result. -/
def seat_apply_acls (env : Env) (s : SeatState) (old_active : Option Session) :
    Int × List Event :=
  let r := env.aclResult old_active s.active
  (r, [Event.aclApply s.id old_active s.active]
        ++ (if r < 0 then [Event.logAclFail] else []))

/-- `seat_active_vt_changed(s, vtnr)` (lines 227-254): reject a
non-vtconsole seat with -EINVAL; otherwise find the first session whose
`vtnr` matches, return 0 unchanged if it is already the active one, else
record the old active, move `active`, apply ACLs (result ignored) and
request `manager_spawn_autovt` (fire-and-forget), returning 0.
The C `assert(vtnr >= 1)` is a precondition of the theorems below. -/
def seat_active_vt_changed (env : Env) (s : SeatState) (vtnr : Int) :
    Int × SeatState × List Event :=
  if s.is_vtconsole = false then (-EINVAL, s, [])
  else
    let new_active := s.sessions.find? (fun i => i.vtnr == vtnr)
    if new_active = s.active then (0, s, [Event.logVtChanged vtnr])
    else
      let s1 := { s with active := new_active }
      let acl := seat_apply_acls env s1 s.active
      (0, s1, [Event.logVtChanged vtnr] ++ acl.2 ++ [Event.spawnAutovt vtnr])

/-! ## Reading the active VT (256-294) -/

/-- The parsing stage of `seat_read_active_vt` applied to the bytes read
(lines 274-291): strip a trailing newline, require a `"tty"` prefix
(else -EIO_errno), parse the remainder as decimal digits (`safe_atoi`, else
-EINVAL), and require the value to be positive (else -EIO_errno). -/
def seat_read_parse (t : List Char) : Except Int Int :=
  let u := truncate_nl t
  if starts_with "tty".toList u = false then Except.error (-EIO_errno)
  else
    match parse_decimal (u.drop 3) with
    | none => Except.error (-EINVAL)
    | some n => if n = 0 then Except.error (-EIO_errno) else Except.ok (n : Int)

/-- `seat_read_active_vt(s)` (lines 256-294): return 0 at once for a
non-vtconsole seat; otherwise read the console-active indicator (logging
and returning the negative code on a failed read), parse the text, and on
success run `seat_active_vt_changed` with the parsed VT number. -/
def seat_read_active_vt (env : Env) (s : SeatState) : Int × SeatState × List Event :=
  if s.is_vtconsole = false then (0, s, [])
  else
    match env.consoleRead with
    | Except.error e => (e, s, [Event.readConsole, Event.logReadFail])
    | Except.ok t =>
        match seat_read_parse t with
        | Except.error e => (e, s, [Event.readConsole, Event.logReadFail])
        | Except.ok vtnr =>
            let r := seat_active_vt_changed env s vtnr
            (r.1, r.2.1, [Event.readConsole] ++ r.2.2)

/-! ## Start / stop (296-341) and the gc queue (352-360) -/

/-- `seat_start(s)` (lines 296-316): 0 at once if already started, else
log, preallocate VTs, read the active VT, save — each result discarded —
then set `started` and return 0. -/
def seat_start (env : Env) (s : SeatState) : Int × SeatState × List Event :=
  if s.started = true then (0, s, [])
  else
    let pre := seat_preallocate_vts env s
    let rd := seat_read_active_vt env s
    (0, { rd.2.1 with started := true },
     [Event.logNewSeat s.id] ++ pre.2 ++ rd.2.2 ++ [Event.saveSeat])

/-- `seat_add_to_gc_queue(s)` (lines 352-360): no-op when already queued,
else prepend to the manager gc queue and set the flag. -/
def seat_add_to_gc_queue (s : SeatState) : SeatState × List Event :=
  if s.in_gc_queue = true then (s, [])
  else ({ s with in_gc_queue := true }, [Event.gcEnqueue s.id])

/-- `seat_stop(s)` (lines 318-341): 0 at once if not started, else log,
request every attached session stop (keeping the last failing result),
unlink the state file, enqueue into the gc queue, clear `started`, and
return the aggregated result. -/
def seat_stop (env : Env) (s : SeatState) : Int × SeatState × List Event :=
  if s.started = false then (0, s, [])
  else
    let r := s.sessions.foldl
      (fun r i => if env.sessionStopResult i.id < 0 then env.sessionStopResult i.id else r) 0
    let gc := seat_add_to_gc_queue s
    (r, { gc.1 with started := false },
     [Event.logRemovedSeat s.id] ++ s.sessions.map (fun i => Event.sessionStop i.id)
       ++ [Event.unlinkStateFile] ++ gc.2)

/-! ## Destruction: seat_free (62-80) -/

/-- `seat_free(s)` (lines 62-80): remove from the gc queue when queued;
`session_free` every attached session (modelled from the spec:
`session_free` lives in logind-session.c, not under src/, and per the spec
"each destruction detaches itself from the sessions sequence" — it does
not touch `active`); then `assert(!s->active)` — modelled as `none`
(assertion failure aborts); then `device_free` every device, remove the
seat from the manager registry and release it.  On success the surviving
registry, gc queue and the destruction events are returned. -/
def seat_free (w : World) : Option (List String × List String × List Event) :=
  let gcq := if w.seat.in_gc_queue then w.gc_queue.erase w.seat.id else w.gc_queue
  match w.seat.active with
  | some _ => none
  | none =>
      some (w.registry.erase w.seat.id, gcq,
            w.seat.sessions.map (fun i => Event.sessionFree i.id)
              ++ w.seat.devices.map Event.deviceFree)

/-! ## Seat name validation (362-387) -/

/-- `seat_name_valid_char(c)` (lines 362-369). -/
def seat_name_valid_char (c : Char) : Bool :=
  (decide ('a' ≤ c) && decide (c ≤ 'z'))
  || (decide ('A' ≤ c) && decide (c ≤ 'Z'))
  || (decide ('0' ≤ c) && decide (c ≤ '9'))
  || c == '-' || c == '_'

/-- `seat_name_is_valid(name)` (lines 371-387): require the `"seat"`
prefix, require `name[4]` to be non-null (at least one character after the
prefix), and require every character of the whole name valid. -/
def seat_name_is_valid (name : String) : Bool :=
  let l := name.toList
  if starts_with "seat".toList l = false then false
  else if (l.drop 4).isEmpty then false
  else l.all seat_name_valid_char

/-! ## Concrete fixtures used by the theorems below -/

/-- Session fixture: id "c1", uid 1000, VT 2. -/
def c1 : Session := { id := "c1", uid := 1000, vtnr := 2 }

/-- Session fixture: id "c2", uid 1001, VT 3. -/
def c2 : Session := { id := "c2", uid := 1001, vtnr := 3 }

/-- Session fixture: id "c3", uid 1002, VT 4. -/
def c3 : Session := { id := "c3", uid := 1002, vtnr := 4 }

/-- A console seat named "seat0" (6 configured autovts) with the given
sessions and active session. -/
def mkSeat (ss : List Session) (a : Option Session) : SeatState :=
  { id := "seat0", sessions := ss, active := a, devices := [], started := false,
    in_gc_queue := false, is_vtconsole := true, n_autovts := 6 }

/-- Environment in which every kernel or collaborator interaction fails
with -EIO (-5). -/
def envFail : Env :=
  { vtOpen := fun _ => -5, consoleRead := Except.error (-5),
    aclResult := fun _ _ => -5, sessionStopResult := fun _ => -5 }

/-- Environment in which every interaction succeeds and the console-active
indicator reads "tty1\n". -/
def envOk : Env :=
  { vtOpen := fun _ => 0, consoleRead := Except.ok "tty1\n".toList,
    aclResult := fun _ _ => 0, sessionStopResult := fun _ => 0 }

/-- An unstarted console seat with 2 configured autovts and no session. -/
def seat2vts : SeatState := { mkSeat [] none with n_autovts := 2 }

/-- A console seat with no attached session and no active session. -/
def seatIdle : SeatState := mkSeat [] none

/-- An unstarted console seat with n_autovts = 1 and no session. -/
def seat1vt : SeatState := { mkSeat [] none with n_autovts := 1 }

/-- An unstarted console seat with n_autovts = 3 and no session. -/
def seat3vts : SeatState := { mkSeat [] none with n_autovts := 3 }

/-- Environment in which only the open of `/dev/tty1` fails. -/
def envVt1Fail : Env :=
  { vtOpen := fun n => if n = 1 then -13 else 0,
    consoleRead := Except.error (-5),
    aclResult := fun _ _ => 0, sessionStopResult := fun _ => 0 }

/-- The events the preallocation loop body produces over the VT numbers
`l`: one open-close attempt per number, plus the error log after each
failing attempt. -/
def prealloc_events (env : Env) : List Nat → List Event
  | [] => []
  | i :: rest =>
      ([Event.vtOpenClose i]
        ++ (if env.vtOpen i < 0 then [Event.logPreallocFail i] else []))
        ++ prealloc_events env rest

/-- The last failing VT-open result among `l` (0 when none fails): the
value the C loop leaves in `r`. -/
def last_vt_failure (env : Env) (l : List Nat) : Int :=
  l.foldl (fun r i => if env.vtOpen i < 0 then env.vtOpen i else r) 0

/-- Recognizer for ACL-application and spawn-request events. -/
def is_acl_or_spawn : Event → Bool
  | Event.aclApply _ _ _ => true
  | Event.spawnAutovt _ => true
  | _ => false

/-- Recognizer for VT open-close attempt events. -/
def is_vt_open : Event → Bool
  | Event.vtOpenClose _ => true
  | _ => false

/-! ## Claim theorems -/

/-- Claim C1 (code bug): `seat_save` does not omit the `OTHER`/`OTHER_UIDS`
output when the only attached session is the active one.  Because the
guard is merely `if (s->sessions)`, a console seat whose single session is
the active one gets the dangling unterminated fragments `OTHER=OTHER_UIDS=`
(first conjunct); and when the active session is the last of several, the
separator choice keyed to `sessions_by_seat_next` leaves both lists
space-terminated with no final newline (second conjunct).  Only when the
active session is followed by the other sessions does the output match the
newline-terminated format the specification states (third conjunct). -/
theorem seat_save_content_other_lines :
    seat_save_content (mkSeat [c1] (some c1)) =
      "# This is private data. Do not parse.\nIS_VTCONSOLE=1\nACTIVE=c1\nACTIVE_UID=1000\nOTHER=OTHER_UIDS="
    ∧ seat_save_content (mkSeat [c2, c1] (some c1)) =
      "# This is private data. Do not parse.\nIS_VTCONSOLE=1\nACTIVE=c1\nACTIVE_UID=1000\nOTHER=c2 OTHER_UIDS=1001 "
    ∧ seat_save_content (mkSeat [c1, c2, c3] (some c1)) =
      "# This is private data. Do not parse.\nIS_VTCONSOLE=1\nACTIVE=c1\nACTIVE_UID=1000\nOTHER=c2 c3\nOTHER_UIDS=1001 1002\n" :=
  ⟨rfl, rfl, rfl⟩

/-- Claim C5: destroying a seat whose `active` reference is non-empty
fails the `assert(!s->active)` contract (modelled as `none`, never a
silent success); destroying a seat with empty `active` removes it from the
gc queue when queued, destroys every attached session and device, and
removes the seat from the manager registry. -/
theorem seat_free_contract (w : World) :
    (∀ a : Session, w.seat.active = some a → seat_free w = none) ∧
    (w.seat.active = none →
      seat_free w = some (w.registry.erase w.seat.id,
        (if w.seat.in_gc_queue then w.gc_queue.erase w.seat.id else w.gc_queue),
        w.seat.sessions.map (fun i => Event.sessionFree i.id)
          ++ w.seat.devices.map Event.deviceFree)) := by
  constructor
  · intro a ha
    simp [seat_free, ha]
  · intro ha
    simp [seat_free, ha]

/-- Witness for C5: a seat with active session "c1" is rejected; a queued
seat with two inactive sessions and one device is torn down fully. -/
theorem seat_free_contract_witness :
    seat_free { seat := mkSeat [c1] (some c1), registry := ["seat0"], gc_queue := [] } = none ∧
    seat_free { seat := { mkSeat [c1, c2] none with devices := [7], in_gc_queue := true },
                registry := ["seat0", "seat1"], gc_queue := ["seat0"] } =
      some (["seat1"], [],
            [Event.sessionFree "c1", Event.sessionFree "c2", Event.deviceFree 7]) := by
  constructor
  · exact (seat_free_contract _).1 c1 rfl
  · exact ((seat_free_contract _).2 rfl).trans (by decide)

/-- Claim C6: on the console seat, when the first attached session whose
`vtnr` equals the reported VT number (or `none` when no session matches)
is already the current `active` (none-equals-none included),
`seat_active_vt_changed` returns 0 and changes nothing: the seat state is
unchanged and no ACL application and no `spawn_autovt` request occurs
(only the unconditional debug log is emitted). -/
theorem seat_active_vt_changed_noop (env : Env) (s : SeatState) (vtnr : Int)
    (hc : s.is_vtconsole = true) (hv : 1 ≤ vtnr)
    (he : s.sessions.find? (fun i => i.vtnr == vtnr) = s.active) :
    seat_active_vt_changed env s vtnr = (0, s, [Event.logVtChanged vtnr]) := by
  simp [seat_active_vt_changed, hc, he]

/-- Witness for C6: VT 2 is already owned by the active session "c1", and
the call is a no-op; the hypotheses hold at this input. -/
theorem seat_active_vt_changed_noop_witness :
    seat_active_vt_changed envFail (mkSeat [c1, c2] (some c1)) 2 =
      (0, mkSeat [c1, c2] (some c1), [Event.logVtChanged 2]) :=
  seat_active_vt_changed_noop envFail (mkSeat [c1, c2] (some c1)) 2 rfl (by decide) (by decide)

/-- Claim C9: `seat_start` on an already started seat and `seat_stop` on a
seat that is not started are both no-ops returning 0: the state is
unchanged and no event occurs (no VT preallocation, no persistence write,
no session-stop request, no state-file deletion, no gc enqueue). -/
theorem seat_start_stop_idempotent (env : Env) (s : SeatState) :
    (s.started = true → seat_start env s = (0, s, [])) ∧
    (s.started = false → seat_stop env s = (0, s, [])) := by
  constructor
  · intro h
    simp [seat_start, h]
  · intro h
    simp [seat_stop, h]

/-- Witness for C9: a started seat restarted, and an unstarted seat
stopped, in the all-failing environment. -/
theorem seat_start_stop_idempotent_witness :
    seat_start envFail { mkSeat [c1] (some c1) with started := true } =
      (0, { mkSeat [c1] (some c1) with started := true }, []) ∧
    seat_stop envFail (mkSeat [c1] (some c1)) = (0, mkSeat [c1] (some c1), []) :=
  ⟨(seat_start_stop_idempotent envFail _).1 rfl,
   (seat_start_stop_idempotent envFail _).2 rfl⟩

/-- Claim C10: for a seat that is not the manager vtconsole,
`seat_read_active_vt` returns 0 immediately, without reading the
console-active indicator and without touching the seat, while
`seat_active_vt_changed` rejects the same seat with -EINVAL. -/
theorem seat_nonconsole_read_vs_changed (env : Env) (s : SeatState) (vtnr : Int)
    (h : s.is_vtconsole = false) (hv : 1 ≤ vtnr) :
    seat_read_active_vt env s = (0, s, []) ∧
    seat_active_vt_changed env s vtnr = (-EINVAL, s, []) := by
  constructor
  · simp [seat_read_active_vt, h]
  · simp [seat_active_vt_changed, h]

/-- Witness for C10 at a non-console seat and VT 1. -/
theorem seat_nonconsole_read_vs_changed_witness :
    seat_read_active_vt envOk { mkSeat [c1] (some c1) with is_vtconsole := false } =
      (0, { mkSeat [c1] (some c1) with is_vtconsole := false }, []) ∧
    seat_active_vt_changed envOk { mkSeat [c1] (some c1) with is_vtconsole := false } 1 =
      (-EINVAL, { mkSeat [c1] (some c1) with is_vtconsole := false }, []) :=
  seat_nonconsole_read_vs_changed envOk _ 1 rfl (by decide)

/-- Counterexample to claim C2 as stated: in the all-failing environment
the VT-preallocation sub-step of `seat_start` fails (its own status is
-5), yet `seat_start` returns 0 — the status returned to the caller never
represents a sub-step failure, because lines 305-311 discard every
sub-step result. -/
theorem seat_start_discards_substep_failures :
    (seat_preallocate_vts envFail seat2vts).1 = -5 ∧
    (seat_preallocate_vts envFail seat2vts).1 < 0 ∧
    seat2vts.started = false ∧
    (seat_start envFail seat2vts).1 = 0 :=
  ⟨by decide, by decide, rfl, by decide⟩

/-- Claim C2 (amended): for every unstarted seat, `seat_start` runs every
sub-step to completion no matter which of them fail — the trace is always
the preallocation events, then the active-VT read events, then the
persistence write — and it always returns 0; sub-step statuses are
discarded by `seat_start` (only `seat_preallocate_vts` internally
aggregates the last VT-open failure into its own, ignored, result). -/
theorem seat_start_best_effort (env : Env) (s : SeatState) (h : s.started = false) :
    (seat_start env s).1 = 0 ∧
    (seat_start env s).2.1 = { (seat_read_active_vt env s).2.1 with started := true } ∧
    (seat_start env s).2.2 =
      [Event.logNewSeat s.id] ++ (seat_preallocate_vts env s).2
        ++ (seat_read_active_vt env s).2.2 ++ [Event.saveSeat] := by
  refine ⟨?_, ?_, ?_⟩ <;> simp [seat_start, h]

/-- Witness for C2 (amended) in the all-failing environment: every
sub-step still runs and 0 is returned. -/
theorem seat_start_best_effort_witness :
    (seat_start envFail seat2vts).1 = 0 ∧
    (seat_start envFail seat2vts).2.1 =
      { (seat_read_active_vt envFail seat2vts).2.1 with started := true } ∧
    (seat_start envFail seat2vts).2.2 =
      [Event.logNewSeat seat2vts.id] ++ (seat_preallocate_vts envFail seat2vts).2
        ++ (seat_read_active_vt envFail seat2vts).2.2 ++ [Event.saveSeat] :=
  seat_start_best_effort envFail seat2vts rfl

/-- Counterexample to claim C4 as stated: on a console seat where no
session claims VT 1 and `active` is already none, `seat_active_vt_changed`
takes the `new_active == s->active` early return: it neither invokes the
ACL coordinator nor requests `spawn_autovt` (the trace holds only the
debug log), contradicting the claim that both still happen for every
reported VT that no session claims. -/
theorem seat_active_vt_changed_idle_skips_acl_and_spawn :
    seatIdle.is_vtconsole = true ∧
    seatIdle.sessions.find? (fun i => i.vtnr == 1) = none ∧
    seatIdle.active = none ∧
    seat_active_vt_changed envOk seatIdle 1 = (0, seatIdle, [Event.logVtChanged 1]) ∧
    (seat_active_vt_changed envOk seatIdle 1).2.2.filter is_acl_or_spawn = [] := by
  refine ⟨rfl, rfl, rfl, by decide, by decide⟩

/-- Claim C4 (amended): on the console seat, for a reported VT number that
no attached session claims, when the current `active` is non-empty (so the
computed `new_active = none` differs from it), `seat_active_vt_changed`
sets `active` to none, invokes the ACL coordinator with the previous
active session as `old_active` and `new_active = none`, and requests
`spawn_autovt` for that VT number. -/
theorem seat_active_vt_changed_unclaimed_vt (env : Env) (s : SeatState) (vtnr : Int)
    (a : Session) (hc : s.is_vtconsole = true) (hv : 1 ≤ vtnr)
    (hm : s.sessions.find? (fun i => i.vtnr == vtnr) = none)
    (ha : s.active = some a) :
    seat_active_vt_changed env s vtnr =
      (0, { s with active := none },
       [Event.logVtChanged vtnr, Event.aclApply s.id (some a) none]
         ++ (if env.aclResult (some a) none < 0 then [Event.logAclFail] else [])
         ++ [Event.spawnAutovt vtnr]) := by
  simp [seat_active_vt_changed, seat_apply_acls, hc, hm, ha]

/-- Witness for C4 (amended): active session "c1" holds VT 2; the console
reports VT 9 which no session claims; the ACL collaborator fails (so its
failure is also logged), and the spawn request is still made. -/
theorem seat_active_vt_changed_unclaimed_vt_witness :
    seat_active_vt_changed envFail (mkSeat [c1] (some c1)) 9 =
      (0, { mkSeat [c1] (some c1) with active := none },
       [Event.logVtChanged 9, Event.aclApply "seat0" (some c1) none]
         ++ (if envFail.aclResult (some c1) none < 0 then [Event.logAclFail] else [])
         ++ [Event.spawnAutovt 9]) :=
  seat_active_vt_changed_unclaimed_vt envFail (mkSeat [c1] (some c1)) 9 c1
    rfl (by decide) (by decide) rfl

/-! ## Preallocation loop lemmas (for claim C3) -/

/-- Unfolding the preallocation fold into its result and its event
trace. -/
theorem prealloc_foldl (env : Env) (l : List Nat) (r : Int) (evs : List Event) :
    l.foldl (prealloc_step env) (r, evs) =
      (l.foldl (fun a i => if env.vtOpen i < 0 then env.vtOpen i else a) r,
       evs ++ prealloc_events env l) := by
  induction l generalizing r evs with
  | nil => simp [prealloc_events]
  | cons i rest ih =>
      by_cases h : env.vtOpen i < 0
      · simp [prealloc_step, vt_allocate, prealloc_events, h, ih]
      · simp [prealloc_step, vt_allocate, prealloc_events, h, ih]

/-- An open-close attempt for VT `n` appears in the loop trace exactly
when `n` was in the iterated list. -/
theorem vtOpenClose_mem_prealloc_events (env : Env) (l : List Nat) (n : Nat) :
    Event.vtOpenClose n ∈ prealloc_events env l ↔ n ∈ l := by
  induction l with
  | nil => simp [prealloc_events]
  | cons i rest ih =>
      by_cases h : env.vtOpen i < 0
      · simp [prealloc_events, h, ih]
      · simp [prealloc_events, h, ih]

/-- Every failing attempt in the iterated list leaves its error log in the
loop trace. -/
theorem logPreallocFail_mem_prealloc_events (env : Env) (l : List Nat) (n : Nat)
    (hn : n ∈ l) (hf : env.vtOpen n < 0) :
    Event.logPreallocFail n ∈ prealloc_events env l := by
  induction l with
  | nil => simp at hn
  | cons i rest ih =>
      rcases List.mem_cons.mp hn with h | h
      · subst h
        simp [prealloc_events, hf]
      · by_cases hi : env.vtOpen i < 0
        · simp [prealloc_events, hi, ih h]
        · simp [prealloc_events, hi, ih h]

/-- On a console seat with a positive autovt count, `seat_preallocate_vts`
is exactly the loop over VT numbers 1 to `n_autovts - 1`. -/
theorem seat_preallocate_vts_eq (env : Env) (s : SeatState)
    (hc : s.is_vtconsole = true) (hn : 0 < s.n_autovts) :
    seat_preallocate_vts env s =
      (last_vt_failure env (List.range' 1 (s.n_autovts - 1)),
       prealloc_events env (List.range' 1 (s.n_autovts - 1))) := by
  unfold seat_preallocate_vts last_vt_failure
  rw [if_neg (by omega), if_neg (by simp [hc])]
  rw [prealloc_foldl]
  simp

/-- `seat_active_vt_changed` never records a VT open-close attempt. -/
theorem vtOpenClose_not_mem_vt_changed (env : Env) (s : SeatState) (vtnr : Int) (n : Nat) :
    Event.vtOpenClose n ∉ (seat_active_vt_changed env s vtnr).2.2 := by
  unfold seat_active_vt_changed seat_apply_acls
  by_cases hc : s.is_vtconsole = false
  · simp [hc]
  · by_cases he : s.sessions.find? (fun i => i.vtnr == vtnr) = s.active
    · simp [hc, he]
    · by_cases ha : env.aclResult s.active (s.sessions.find? (fun i => i.vtnr == vtnr)) < 0
      · simp [hc, he, ha]
      · simp [hc, he, ha]

/-- `seat_read_active_vt` never records a VT open-close attempt. -/
theorem vtOpenClose_not_mem_read (env : Env) (s : SeatState) (n : Nat) :
    Event.vtOpenClose n ∉ (seat_read_active_vt env s).2.2 := by
  unfold seat_read_active_vt
  by_cases hc : s.is_vtconsole = false
  · simp [hc]
  · cases hr : env.consoleRead with
    | error e => simp [hc, hr]
    | ok t =>
        cases hp : seat_read_parse t with
        | error e => simp [hc, hr, hp]
        | ok vtnr =>
            simp only [hc, hr, hp]
            simp [vtOpenClose_not_mem_vt_changed env s vtnr n]

/-- Counterexample to claim C3 as stated: with a positive configured count
of 1, starting the console seat attempts no VT open at all — in
particular not `/dev/tty1` even though 1 lies in 1..configured_count —
because the loop at line 197 runs `i` from 1 while `i < n_autovts`,
excluding the configured count itself. -/
theorem seat_start_skips_configured_count :
    seat1vt.is_vtconsole = true ∧ 0 < seat1vt.n_autovts ∧ seat1vt.started = false ∧
    (seat_start envOk seat1vt).2.2.filter is_vt_open = [] ∧
    (seat_preallocate_vts envOk seat1vt).2 = [] := by
  refine ⟨rfl, by decide, rfl, by decide, by decide⟩

/-- Claim C3 (amended): starting an unstarted console seat with a positive
configured autovt count attempts to open (read-write, non-controlling) and
immediately close `/dev/tty<n>` for exactly the numbers n with
1 ≤ n < configured_count (the configured count itself excluded), each
individual open failure is logged without stopping the loop over the
remaining numbers, and the preallocation status records the last failure
seen. -/
theorem seat_start_preallocates (env : Env) (s : SeatState)
    (h0 : s.started = false) (hc : s.is_vtconsole = true) (hn : 0 < s.n_autovts) :
    (∀ n : Nat, Event.vtOpenClose n ∈ (seat_start env s).2.2 ↔ 1 ≤ n ∧ n < s.n_autovts) ∧
    (∀ n : Nat, 1 ≤ n → n < s.n_autovts → env.vtOpen n < 0 →
        Event.logPreallocFail n ∈ (seat_start env s).2.2) ∧
    (seat_preallocate_vts env s).1 = last_vt_failure env (List.range' 1 (s.n_autovts - 1)) := by
  have hpre := seat_preallocate_vts_eq env s hc hn
  have hev : (seat_start env s).2.2 =
      [Event.logNewSeat s.id] ++ (seat_preallocate_vts env s).2
        ++ (seat_read_active_vt env s).2.2 ++ [Event.saveSeat] := by
    simp [seat_start, h0]
  refine ⟨?_, ?_, ?_⟩
  · intro n
    rw [hev, hpre]
    simp [List.mem_append, vtOpenClose_mem_prealloc_events, List.mem_range'_1,
          vtOpenClose_not_mem_read env s n]
    omega
  · intro n h1 h2 hf
    have hm : Event.logPreallocFail n ∈ prealloc_events env (List.range' 1 (s.n_autovts - 1)) := by
      refine logPreallocFail_mem_prealloc_events env _ n ?_ hf
      simp [List.mem_range'_1]
      omega
    rw [hev, hpre]
    simp [List.mem_append, hm]
  · simp [hpre]

/-- Witness for C3 (amended): with 3 configured autovts, VTs 1 and 2 are
attempted (not 3), the failing VT 1 is logged, the loop continues past the
failure, and the status is the last failure. -/
theorem seat_start_preallocates_witness :
    Event.vtOpenClose 1 ∈ (seat_start envVt1Fail seat3vts).2.2 ∧
    Event.vtOpenClose 2 ∈ (seat_start envVt1Fail seat3vts).2.2 ∧
    (seat_start envVt1Fail seat3vts).2.2.filter is_vt_open =
      [Event.vtOpenClose 1, Event.vtOpenClose 2] ∧
    Event.logPreallocFail 1 ∈ (seat_start envVt1Fail seat3vts).2.2 ∧
    (seat_preallocate_vts envVt1Fail seat3vts).1 =
      last_vt_failure envVt1Fail (List.range' 1 2) := by
  have h := seat_start_preallocates envVt1Fail seat3vts rfl rfl (by decide)
  exact ⟨(h.1 1).2 (by decide), (h.1 2).2 (by decide), by decide,
         h.2.1 1 (by decide) (by decide) (by decide), h.2.2⟩

/-- A prefix test succeeds exactly when the scanned list decomposes as the
pattern followed by a remainder. -/
theorem starts_with_iff (p l : List Char) :
    starts_with p l = true ↔ ∃ rest, l = p ++ rest := by
  induction p generalizing l with
  | nil => simp [starts_with]
  | cons x xs ih =>
      cases l with
      | nil => simp [starts_with]
      | cons c cs =>
          simp only [starts_with, Bool.and_eq_true, beq_iff_eq, ih,
                     List.cons_append, List.cons.injEq]
          constructor
          · rintro ⟨hx, rest, hr⟩
            exact ⟨rest, hx.symm, hr⟩
          · rintro ⟨rest, hx, hr⟩
            exact ⟨hx.symm, rest, hr⟩

/-- Claim C7: the parsing stage of `seat_read_active_vt` succeeds with
value N exactly when, after the trailing newline is stripped, the text is
the literal prefix "tty" followed by one or more decimal digits whose
value N is positive; a missing prefix, a non-digit remainder, or the value
0 produce a negative error, never a successful read of VT 0.  The claimed
examples are checked: "tty7\n" parses to 7, "ttyX" is a format error,
"foo7" a prefix error, "tty0" an invalid-value error. -/
theorem seat_read_parse_ok_iff :
    (∀ (t : List Char) (n : Int),
      seat_read_parse t = Except.ok n ↔
        ∃ ds : List Char, truncate_nl t = "tty".toList ++ ds ∧ ds ≠ [] ∧
          (∀ c ∈ ds, c.isDigit = true) ∧ n = (digits_to_nat ds : Int) ∧ 0 < n) ∧
    seat_read_parse "tty7\n".toList = Except.ok 7 ∧
    seat_read_parse "ttyX".toList = Except.error (-EINVAL) ∧
    seat_read_parse "foo7".toList = Except.error (-EIO_errno) ∧
    seat_read_parse "tty0".toList = Except.error (-EIO_errno) := by
  refine ⟨?_, rfl, rfl, rfl, rfl⟩
  intro t n
  simp only [seat_read_parse]
  generalize truncate_nl t = u
  constructor
  · intro h
    by_cases hsw : starts_with "tty".toList u = true
    case neg =>
      rw [Bool.not_eq_true] at hsw
      rw [if_pos hsw] at h
      simp at h
    case pos =>
      rw [hsw, if_neg (by simp)] at h
      obtain ⟨rest, hrest⟩ := (starts_with_iff _ _).mp hsw
      have hdrop : u.drop 3 = rest := by rw [hrest]; rfl
      rw [hdrop] at h
      split at h
      · simp at h
      · next d hpd =>
          split at h
          · simp at h
          · next hz =>
              injection h with h
              have hc : (!rest.isEmpty && rest.all Char.isDigit) = true := by
                by_contra hcc
                rw [Bool.not_eq_true] at hcc
                unfold parse_decimal at hpd
                rw [hcc] at hpd
                simp at hpd
              have hd : digits_to_nat rest = d := by
                unfold parse_decimal at hpd
                rw [if_pos hc] at hpd
                injection hpd
              refine ⟨rest, hrest, ?_, ?_, ?_, ?_⟩
              · intro h0
                rw [h0] at hc
                simp at hc
              · rw [Bool.and_eq_true] at hc
                exact List.all_eq_true.mp hc.2
              · rw [hd, h]
              · rw [← h]
                exact_mod_cast Nat.pos_of_ne_zero hz
  · rintro ⟨ds, hds, hne, hdig, hn, hpos⟩
    have hsw : starts_with "tty".toList u = true := (starts_with_iff _ _).mpr ⟨ds, hds⟩
    have hdrop : u.drop 3 = ds := by rw [hds]; rfl
    have hall : ds.all Char.isDigit = true := List.all_eq_true.mpr hdig
    have hemp : ds.isEmpty = false := by
      cases ds with
      | nil => exact absurd rfl hne
      | cons a l => rfl
    have hz : digits_to_nat ds ≠ 0 := by
      intro h0
      rw [hn, h0] at hpos
      simp at hpos
    have hpd : parse_decimal ds = some (digits_to_nat ds) := by
      unfold parse_decimal
      rw [if_pos (by rw [hemp, hall]; rfl)]
    rw [hsw, if_neg (by simp), hdrop]
    simp [hpd, hz, hn]

/-- The character class of `seat_name_valid_char` (lines 362-369) is
exactly: ASCII letter, ASCII digit, dash or underscore. -/
theorem seat_name_valid_char_iff (c : Char) :
    seat_name_valid_char c = true ↔
      (c.isAlpha = true ∨ c.isDigit = true ∨ c = '-' ∨ c = '_') := by
  unfold seat_name_valid_char
  simp only [Bool.or_eq_true, Bool.and_eq_true, decide_eq_true_eq, beq_iff_eq,
             Char.isAlpha, Char.isUpper, Char.isLower, Char.isDigit, Char.le_def,
             ge_iff_le]
  constructor
  · rintro ((((h | h) | h) | h) | h)
    · exact Or.inl (Or.inr ⟨h.1, h.2⟩)
    · exact Or.inl (Or.inl ⟨h.1, h.2⟩)
    · exact Or.inr (Or.inl ⟨h.1, h.2⟩)
    · exact Or.inr (Or.inr (Or.inl h))
    · exact Or.inr (Or.inr (Or.inr h))
  · rintro ((h | h) | h | h | h)
    · exact Or.inl (Or.inl (Or.inl (Or.inr ⟨h.1, h.2⟩)))
    · exact Or.inl (Or.inl (Or.inl (Or.inl ⟨h.1, h.2⟩)))
    · exact Or.inl (Or.inl (Or.inr ⟨h.1, h.2⟩))
    · exact Or.inl (Or.inr h)
    · exact Or.inr h

/-- Claim C8: `seat_name_is_valid` accepts a string exactly when it starts
with the literal prefix "seat", has at least one further character, and
every character of the whole string is an ASCII letter, an ASCII digit,
a dash or an underscore.  The claimed examples are checked: "seat0" and
"seat-VGA-1" are valid, "seat", "Seat0" and "seat 0" are not. -/
theorem seat_name_is_valid_iff :
    (∀ name : String, seat_name_is_valid name = true ↔
      ((∃ rest : List Char, name.toList = "seat".toList ++ rest ∧ rest ≠ []) ∧
        ∀ c ∈ name.toList, (c.isAlpha = true ∨ c.isDigit = true ∨ c = '-' ∨ c = '_'))) ∧
    seat_name_is_valid "seat0" = true ∧
    seat_name_is_valid "seat" = false ∧
    seat_name_is_valid "Seat0" = false ∧
    seat_name_is_valid "seat 0" = false ∧
    seat_name_is_valid "seat-VGA-1" = true := by
  refine ⟨?_, rfl, rfl, rfl, rfl, rfl⟩
  intro name
  simp only [seat_name_is_valid]
  by_cases hsw : starts_with "seat".toList name.toList = true
  · rw [hsw, if_neg (by simp)]
    obtain ⟨rest, hrest⟩ := (starts_with_iff _ _).mp hsw
    have hdrop : name.toList.drop 4 = rest := by rw [hrest]; rfl
    rw [hdrop]
    by_cases hr : rest = []
    · subst hr
      rw [if_pos ((by rfl) : ([] : List Char).isEmpty = true)]
      constructor
      · intro h
        cases h
      · rintro ⟨⟨rest2, hre2, hne2⟩, _⟩
        have h2 : name.toList.drop 4 = rest2 := by rw [hre2]; rfl
        rw [hdrop] at h2
        exact absurd h2.symm hne2
    · have hne : rest.isEmpty = false := by
        cases rest with
        | nil => exact absurd rfl hr
        | cons a l => rfl
      rw [hne, if_neg (by simp), List.all_eq_true]
      constructor
      · intro h
        exact ⟨⟨rest, hrest, hr⟩, fun c hc => (seat_name_valid_char_iff c).mp (h c hc)⟩
      · rintro ⟨_, h⟩
        exact fun c hc => (seat_name_valid_char_iff c).mpr (h c hc)
  · rw [Bool.not_eq_true] at hsw
    rw [if_pos hsw]
    constructor
    · intro h
      cases h
    · rintro ⟨⟨rest2, hre2, _⟩, _⟩
      have hs : starts_with "seat".toList name.toList = true :=
        (starts_with_iff _ _).mpr ⟨rest2, hre2⟩
      rw [hsw] at hs
      cases hs

/-- Witness for C7: the characterization applied at the concrete read
"tty12\n", whose digits "12" satisfy every side condition. -/
theorem seat_read_parse_ok_iff_witness :
    seat_read_parse "tty12\n".toList = Except.ok 12 :=
  (seat_read_parse_ok_iff.1 "tty12\n".toList 12).mpr
    ⟨"12".toList, by decide, by decide, by decide, by decide, by decide⟩

/-- Witness for C8: the characterization applied at the concrete name
"seat1-A_b", which satisfies every side condition. -/
theorem seat_name_is_valid_iff_witness :
    seat_name_is_valid "seat1-A_b" = true :=
  (seat_name_is_valid_iff.1 "seat1-A_b").mpr
    ⟨⟨"1-A_b".toList, by decide, by decide⟩, by decide⟩
